import Mathlib

/-!
Shallow embedding of the Spacebattle authoritative game server
(src/server/server.js, later revision unless noted) and of the client
reconciliation layer (src/client/game.js).  Positions, velocities and the
interpolation state are modelled as rationals; health, kills and scores as
integers.  `Math.random()` draws are passed in as explicit rational
parameters constrained to `[0,1)` where a theorem needs that range.
The square-root normalisation used for knockback direction is abstracted:
the handler receives the normalised direction as a parameter, and the
code's `dist > 0` test is modelled by the equivalent rational test
`dx^2 + dy^2 > 0`.
-/

namespace Spacebattle

/-- Game world width (server.js line 54). -/
def GAME_WIDTH : ℚ := 2000

/-- Game world height (server.js line 55). -/
def GAME_HEIGHT : ℚ := 1500

/-- Maximum / initial player health (server.js line 66). -/
def PLAYER_HEALTH : Int := 100

/-- Respawn delay in milliseconds (server.js line 67). -/
def RESPAWN_TIME : Nat := 3000

/-- Damage a player takes from colliding with an asteroid (server.js line 76). -/
def ASTEROID_DAMAGE : Int := 10

/-- Player collision radius (server.js line 74). -/
def PLAYER_RADIUS : ℚ := 15

/-- Half ship width used to clamp positions (server.js lines 417, 476). -/
def halfShipWidth : ℚ := 12

/-- Knockback force constant (server.js line 397). -/
def knockbackForce : ℚ := 30

/-- Physics radius by asteroid size, `ASTEROID_RADII[size] || 32`
(server.js lines 75 and 262): sizes outside 0..2 default to 32 via
JavaScript falsiness of `undefined`. -/
def asteroidRadius (size : Nat) : ℚ :=
  if size = 2 then 32 else if size = 1 then 24 else if size = 0 then 16 else 32

/-- `Math.max(lo, Math.min(hi, v))`, the clamping pattern used by the
movement and knockback handlers. -/
def clampQ (lo hi v : ℚ) : ℚ := max lo (min hi v)

/-- JavaScript `a || b` on a possibly-absent number: `null`/`undefined`
and `0` are falsy and select the default. -/
def jsOr (v : Option ℚ) (d : ℚ) : ℚ :=
  match v with
  | none => d
  | some x => if x = 0 then d else x

/-- Server-side player record (fields of the object built in the
`playerJoin` handler, server.js lines 301-313). -/
structure Player where
  id : String
  name : String
  x : ℚ
  y : ℚ
  rotation : ℚ
  velocityX : ℚ
  velocityY : ℚ
  score : Int
  kills : Int
  health : Int
  isAlive : Bool
deriving Repr, DecidableEq

/-- Server-side asteroid record (fields of the object built in
`createAsteroid`, server.js lines 110-120). -/
structure Asteroid where
  id : String
  x : ℚ
  y : ℚ
  rotation : ℚ
  size : Nat
  variation : Nat
  velocityX : ℚ
  velocityY : ℚ
deriving Repr, DecidableEq

/-- Server-side power-up record (server.js lines 90-95). -/
structure Powerup where
  id : Nat
  type : String
  x : ℚ
  y : ℚ
deriving Repr, DecidableEq

/-- Events emitted by the server handlers (socket.io `emit` calls),
restricted to the fields the claims are about. -/
inductive Ev where
  | newAsteroid (a : Asteroid)
  | asteroidDestroyed (id : String)
  | powerupSpawned (p : Powerup)
  | powerupRemoved (id : Nat)
  | playerHealthUpdate (id : String) (health : Int) (x y : ℚ)
  | playerDamaged (id : String) (health : Int)
  | playerDied (id : String)
  | playerKilled (playerId killerId : String)
  | killsUpdate (playerId : String) (kills : Int)
  | playerRespawned (id : String) (x y : ℚ) (health : Int)
  | activateSpeedBoost (toId : String) (duration : Nat)
  | snapshotHealth (id : String) (health : Int)
deriving Repr, DecidableEq

/-- Association-list lookup, the embedding of `map.get(key)`. -/
def lookupA {α : Type} (m : List (String × α)) (k : String) : Option α :=
  match m with
  | [] => none
  | (k2, v) :: rest => if k2 = k then some v else lookupA rest k

/-- Association-list update of an existing key, the embedding of mutating
an object already stored in a `Map` (updates every binding of the key;
the server maps bind each id once). -/
def setA {α : Type} (m : List (String × α)) (k : String) (v : α) :
    List (String × α) :=
  m.map (fun kv => if kv.1 = k then (k, v) else kv)

/-- Association-list deletion, the embedding of `map.delete(key)`. -/
def delA {α : Type} (m : List (String × α)) (k : String) :
    List (String × α) :=
  m.filter (fun kv => kv.1 ≠ k)

/-- The `Math.random()` draws consumed by one call to `createAsteroid`,
each a rational in `[0,1)`. -/
structure AsteroidRand where
  rx : ℚ
  ry : ℚ
  rrot : ℚ
  rvar : Nat
  rvx : ℚ
  rvy : ℚ
deriving Repr, DecidableEq

/-- `createAsteroid` (server.js lines 110-124).  Defaulting of every
field uses JavaScript `||`, so a supplied coordinate or velocity
component that is exactly `0` is falsy and is replaced by a fresh random
draw.  The id string and the random draws are explicit parameters;
`rotation` stands for `Math.random()*2*PI` via the draw `rrot`. -/
def createAsteroid (x y : ℚ) (size : Nat)
    (velocityX velocityY : Option ℚ) (r : AsteroidRand) (newId : String) :
    Asteroid :=
  { id := newId
    x := if x = 0 then r.rx * GAME_WIDTH else x
    y := if y = 0 then r.ry * GAME_HEIGHT else y
    rotation := r.rrot
    size := size
    variation := r.rvar
    velocityX := jsOr velocityX ((r.rvx - 1/2) * (50 - size * 5))
    velocityY := jsOr velocityY ((r.rvy - 1/2) * (50 - size * 5)) }

/-- Inputs abstracting the trigonometry of one fragment burst in
`handleAsteroidHit`: `c`/`s` are the cosine and sine of the fragment
angle for `i = 0`; the `i = 1` fragment uses angle `+ π`, whose cosine
and sine are exactly `-c` and `-s`. -/
structure FragRand where
  c : ℚ
  s : ℚ
  rand0 : AsteroidRand
  rand1 : AsteroidRand
  id0 : String
  id1 : String
deriving Repr, DecidableEq

/-- Result of `handleAsteroidHit`: the updated asteroid map, the new
power-up map, the list of created fragments and the emitted events. -/
structure HitResult where
  asteroids : List (String × Asteroid)
  powerups : List (Nat × Powerup)
  created : List Asteroid
  events : List Ev
deriving Repr, DecidableEq

/-- `generatePowerup` (server.js lines 82-99) at given spawn
coordinates: respects the `MAX_POWERUPS` cap; type and id come from the
caller-provided draws. -/
def generatePowerup (pm : List (Nat × Powerup)) (spawnX spawnY : ℚ)
    (ptype : String) (pid : Nat) : List (Nat × Powerup) × List Ev :=
  if pm.length ≥ 5 then (pm, [])
  else
    let pu : Powerup := { id := pid, type := ptype, x := spawnX, y := spawnY }
    (pm ++ [(pid, pu)], [Ev.powerupSpawned pu])

/-- `handleAsteroidHit` (server.js lines 170-219, later revision).  A
missing id is a no-op.  Otherwise the asteroid is deleted and, when it
was large, a power-up may spawn (`spawnRoll` models the 50% chance); an
asteroid of size > 0 splits into exactly 2 fragments of size − 1 at the
parent position plus an offset of 10 along the fragment angle, created
through `createAsteroid` (subject to its falsiness defaulting). -/
def handleAsteroidHit (am : List (String × Asteroid))
    (pm : List (Nat × Powerup)) (asteroidId : String) (spawnRoll : Bool)
    (ptype : String) (pid : Nat) (fr : FragRand) : HitResult :=
  match lookupA am asteroidId with
  | none => { asteroids := am, powerups := pm, created := [], events := [] }
  | some asteroid =>
    let originalX := asteroid.x
    let originalY := asteroid.y
    let originalSize := asteroid.size
    let am1 := delA am asteroidId
    let evs0 := [Ev.asteroidDestroyed asteroidId]
    let pspawn :=
      if originalSize = 2 ∧ spawnRoll then
        generatePowerup pm originalX originalY ptype pid
      else (pm, [])
    if originalSize > 0 then
      let newSize := originalSize - 1
      let mk := fun (c s : ℚ) (r : AsteroidRand) (nid : String) =>
        createAsteroid (originalX + c * 10) (originalY + s * 10) newSize
          (some (asteroid.velocityX * (1/2) + c * 50))
          (some (asteroid.velocityY * (1/2) + s * 50)) r nid
      let child0 := mk fr.c fr.s fr.rand0 fr.id0
      let child1 := mk (-fr.c) (-fr.s) fr.rand1 fr.id1
      { asteroids := am1 ++ [(child0.id, child0), (child1.id, child1)]
        powerups := pspawn.1
        created := [child0, child1]
        events := evs0 ++ pspawn.2 ++ [Ev.newAsteroid child0, Ev.newAsteroid child1] }
    else
      { asteroids := am1
        powerups := pspawn.1
        created := []
        events := evs0 ++ pspawn.2 }

/-- Weapon damage table of the `playerHit` handler (server.js lines
399-408): 20 by default, 15 for `spread`, 25 for `laser`. -/
def damageFor (weaponType : String) : Int :=
  if weaponType = "spread" then 15
  else if weaponType = "laser" then 25
  else 20

/-- Knockback direction computed by the `playerHit` handler (server.js
lines 384-396): zero when the shooter is absent or coincides with the
target (`dist > 0` is equivalent to `dx^2 + dy^2 > 0`); otherwise the
square-root-normalised unit vector, abstracted as the parameter `k`. -/
def knockDir (shooter : Option Player) (hitPlayer : Player) (k : ℚ × ℚ) :
    ℚ × ℚ :=
  match shooter with
  | none => (0, 0)
  | some s =>
    let dx := hitPlayer.x - s.x
    let dy := hitPlayer.y - s.y
    if dx ^ 2 + dy ^ 2 > 0 then k else (0, 0)

/-- `k` really is the normalisation of the vector from the shooter to
the hit player: a unit vector positively proportional to `(dx, dy)`. -/
def IsKnockDir (dx dy : ℚ) (k : ℚ × ℚ) : Prop :=
  dx ^ 2 + dy ^ 2 > 0 →
    k.1 ^ 2 + k.2 ^ 2 = 1 ∧ ∃ t : ℚ, 0 < t ∧ dx = k.1 * t ∧ dy = k.2 * t

/-- Damage, knockback and clamp applied to the hit player (server.js
lines 410-419), before the death/health-update branch. -/
def applyHitDamage (hitPlayer : Player) (damage : Int) (kdir : ℚ × ℚ) :
    Player :=
  { hitPlayer with
    health := hitPlayer.health - damage
    x := clampQ halfShipWidth (GAME_WIDTH - halfShipWidth)
          (hitPlayer.x + kdir.1 * knockbackForce)
    y := clampQ halfShipWidth (GAME_HEIGHT - halfShipWidth)
          (hitPlayer.y + kdir.2 * knockbackForce) }

/-- Result of the `playerHit` handler: updated player map, emitted
events, and whether a respawn timer was scheduled for the hit player. -/
structure PlayerHitResult where
  players : List (String × Player)
  events : List Ev
  respawnScheduled : Bool
deriving Repr, DecidableEq

/-- The `playerHit` intent handler (server.js lines 378-467, later
revision).  No-op unless the hit player exists and is alive.  Damage is
applied unconditionally — in particular also when
`shooterId = hitPlayerId`; only the kill-credit increment is guarded by
the self-kill check (line 429).  The knockback unit vector is the
parameter `k`, used only when the shooter exists and is at positive
distance. -/
def playerHitHandler (m : List (String × Player))
    (hitPlayerId shooterId weaponType : String) (k : ℚ × ℚ) :
    PlayerHitResult :=
  match lookupA m hitPlayerId with
  | none => { players := m, events := [], respawnScheduled := false }
  | some hitPlayer =>
    if hitPlayer.isAlive then
      let kdir := knockDir (lookupA m shooterId) hitPlayer k
      let damage := damageFor weaponType
      let hp1 := applyHitDamage hitPlayer damage kdir
      if hp1.health ≤ 0 then
        let hp2 := { hp1 with isAlive := false }
        let m1 := setA m hitPlayerId hp2
        let evs := [Ev.playerKilled hitPlayerId shooterId]
        if shooterId ≠ hitPlayerId then
          match lookupA m1 shooterId with
          | some killer =>
            let killer2 := { killer with kills := killer.kills + 1 }
            { players := setA m1 shooterId killer2
              events := evs ++ [Ev.killsUpdate shooterId killer2.kills]
              respawnScheduled := true }
          | none => { players := m1, events := evs, respawnScheduled := true }
        else { players := m1, events := evs, respawnScheduled := true }
      else
        { players := setA m hitPlayerId hp1
          events := [Ev.playerHealthUpdate hitPlayerId hp1.health hp1.x hp1.y]
          respawnScheduled := false }
    else { players := m, events := [], respawnScheduled := false }

/-- Body of the respawn timer scheduled by the `playerHit` kill branch
(server.js lines 442-455): fires only if the player still exists; resets
health, aliveness, position (random in-bounds), rotation and velocity,
and broadcasts the respawn. -/
def respawnFromHit (m : List (String × Player)) (playerId : String)
    (rx ry : ℚ) : List (String × Player) × List Ev :=
  match lookupA m playerId with
  | none => (m, [])
  | some p =>
    let p2 := { p with
      health := PLAYER_HEALTH
      isAlive := true
      x := rx * GAME_WIDTH
      y := ry * GAME_HEIGHT
      rotation := 0
      velocityX := 0
      velocityY := 0 }
    (setA m playerId p2, [Ev.playerRespawned playerId p2.x p2.y p2.health])

/-- Body of the respawn timer scheduled by `handlePlayerDeath`
(server.js lines 234-250): like `respawnFromHit` but the player's
rotation is NOT reset. -/
def respawnFromDeath (m : List (String × Player)) (playerId : String)
    (rx ry : ℚ) : List (String × Player) × List Ev :=
  match lookupA m playerId with
  | none => (m, [])
  | some p =>
    let p2 := { p with
      health := PLAYER_HEALTH
      isAlive := true
      x := rx * GAME_WIDTH
      y := ry * GAME_HEIGHT
      velocityX := 0
      velocityY := 0 }
    (setA m playerId p2, [Ev.playerRespawned playerId p2.x p2.y p2.health])

/-- `handlePlayerDeath` (server.js lines 222-251) without the timer
body: guard on aliveness, set dead with health 0, broadcast, schedule a
respawn.  Returns the updated player and whether a timer was
scheduled. -/
def handlePlayerDeath (p : Player) : Player × List Ev × Bool :=
  if p.isAlive then
    ({ p with isAlive := false, health := 0 }, [Ev.playerDied p.id], true)
  else (p, [], false)

/-- One asteroid of the inner `checkCollisions` loop (server.js lines
258-284) acting on a player: distance test (`dist < r` is modelled as
`dist^2 < r^2`, both sides nonnegative), damage, broadcast of the
possibly negative health, then the death transition if health is 0 or
below.  The aliveness guard sits OUTSIDE this loop, so a player dying
mid-sweep keeps taking damage from later asteroids in the same tick. -/
def collideOne (pa : Player × List Ev) (a : Asteroid) : Player × List Ev :=
  let p := pa.1
  let dx := p.x - a.x
  let dy := p.y - a.y
  let r := PLAYER_RADIUS + asteroidRadius a.size
  if dx ^ 2 + dy ^ 2 < r ^ 2 then
    let p1 := { p with health := p.health - ASTEROID_DAMAGE }
    let evs := pa.2 ++ [Ev.playerDamaged p1.id p1.health]
    if p1.health ≤ 0 then
      let d := handlePlayerDeath p1
      (d.1, evs ++ d.2.1)
    else (p1, evs)
  else pa

/-- The per-player part of `checkCollisions` (server.js lines 254-286):
dead players are skipped up front; a living player is folded over every
asteroid. -/
def checkCollisionsPlayer (p : Player) (asts : List Asteroid) :
    Player × List Ev :=
  if p.isAlive then asts.foldl collideOne (p, []) else (p, [])

/-- The `powerupCollected` handler (server.js lines 332-363, later
revision): accepted only when the power-up exists AND the collecting
player exists AND is alive; then the power-up is removed and broadcast,
a health power-up heals 35 clamped to `PLAYER_HEALTH`, and a speed
power-up sends a 3000 ms boost activation to the collector only. -/
def powerupCollectedHandler (pm : List (Nat × Powerup))
    (players : List (String × Player)) (socketId : String) (pid : Nat) :
    List (Nat × Powerup) × List (String × Player) × List Ev :=
  match (pm.lookup pid, lookupA players socketId) with
  | (some powerup, some player) =>
    if player.isAlive then
      let pm1 := pm.filter (fun kv => kv.1 ≠ pid)
      let evs0 := [Ev.powerupRemoved pid]
      if powerup.type = "health" then
        let player2 := { player with
          health := min (player.health + 35) PLAYER_HEALTH }
        (pm1, setA players socketId player2,
          evs0 ++ [Ev.playerHealthUpdate player2.id player2.health
                    player2.x player2.y])
      else if powerup.type = "speed" then
        (pm1, players, evs0 ++ [Ev.activateSpeedBoost socketId 3000])
      else (pm1, players, evs0)
    else (pm, players, [])
  | _ => (pm, players, [])

/-- The `playerMovement` handler's effect on the moving player
(server.js lines 470-486): accepted only when alive; the reported
position is clamped into the world, rotation and velocity are stored as
reported. -/
def playerMovementHandler (p : Player) (mx my mrot mvx mvy : ℚ) : Player :=
  if p.isAlive then
    { p with
      x := clampQ halfShipWidth (GAME_WIDTH - halfShipWidth) mx
      y := clampQ halfShipWidth (GAME_HEIGHT - halfShipWidth) my
      rotation := mrot
      velocityX := mvx
      velocityY := mvy }
  else p

/-- The player object built by the `playerJoin` handler (server.js
lines 301-313); `rx`, `ry` are the two `Math.random()` draws. -/
def joinPlayer (sid pname : String) (rx ry : ℚ) : Player :=
  { id := sid
    name := pname
    x := rx * GAME_WIDTH
    y := ry * GAME_HEIGHT
    rotation := 0
    velocityX := 0
    velocityY := 0
    score := 0
    kills := 0
    health := PLAYER_HEALTH
    isAlive := true }

/-! ### Health-affecting server operations on one tracked player (C1)

Projection of the server handlers onto a single player's record: each
constructor carries the data the corresponding handler reads.  `hit`
carries the knockback direction already resolved by `knockDir`, since
the target's health does not depend on it. -/

/-- One server operation touching the tracked player. -/
inductive C1Op where
  | hit (shooterId weaponType : String) (kdir : ℚ × ℚ)
  | tick (asts : List Asteroid)
  | heal
  | respawn (rx ry : ℚ)
  | snapshot
deriving Repr, DecidableEq

/-- Effect of one operation on the tracked player, with the emitted
events: `hit` is the hit-target part of the `playerHit` handler, `tick`
is one `checkCollisions` sweep, `heal` an accepted health power-up
collection, `respawn` a respawn timer firing while the player exists,
and `snapshot` the 60 Hz `gameState` serialization of the player. -/
def c1Step (p : Player) (op : C1Op) : Player × List Ev :=
  match op with
  | C1Op.hit sid w kdir =>
    if p.isAlive then
      let hp1 := applyHitDamage p (damageFor w) kdir
      if hp1.health ≤ 0 then
        ({ hp1 with isAlive := false }, [Ev.playerKilled p.id sid])
      else (hp1, [Ev.playerHealthUpdate p.id hp1.health hp1.x hp1.y])
    else (p, [])
  | C1Op.tick asts => checkCollisionsPlayer p asts
  | C1Op.heal =>
    if p.isAlive then
      let p2 := { p with health := min (p.health + 35) PLAYER_HEALTH }
      (p2, [Ev.playerHealthUpdate p2.id p2.health p2.x p2.y])
    else (p, [])
  | C1Op.respawn rx ry =>
    let p2 := { p with
      health := PLAYER_HEALTH
      isAlive := true
      x := rx * GAME_WIDTH
      y := ry * GAME_HEIGHT
      rotation := 0
      velocityX := 0
      velocityY := 0 }
    (p2, [Ev.playerRespawned p2.id p2.x p2.y p2.health])
  | C1Op.snapshot => (p, [Ev.snapshotHealth p.id p.health])

/-- Run a sequence of operations, accumulating the emitted events. -/
def c1Run (p : Player) : List C1Op → Player × List Ev
  | [] => (p, [])
  | op :: ops =>
    let r := c1Step p op
    let rest := c1Run r.1 ops
    (rest.1, r.2 ++ rest.2)

/-- The health values observable by clients in the emitted events. -/
def observedHealths (evs : List Ev) : List Int :=
  evs.filterMap (fun ev =>
    match ev with
    | Ev.playerHealthUpdate _ h _ _ => some h
    | Ev.playerDamaged _ h => some h
    | Ev.playerRespawned _ _ _ h => some h
    | Ev.snapshotHealth _ h => some h
    | _ => none)

/-! ### Death / respawn-timer trace semantics (C3)

One connection's player together with the respawn timers currently
pending for it.  All timers have the same 3000 ms delay, so they fire in
scheduling order; `fireTimer` fires the oldest one.  No timer is ever
cancelled: staleness is handled by the `players.has` existence check at
fire time, exactly as in the source. -/

/-- Which code path scheduled a pending respawn timer. -/
inductive RTimer where
  | fromDeath
  | fromHit
deriving Repr, DecidableEq

/-- One connection's player (if still connected) and its pending
respawn timers, oldest first. -/
structure RState where
  player : Option Player
  pending : List RTimer
deriving Repr, DecidableEq

/-- Operations of the death/respawn trace. -/
inductive ROp where
  | tick (asts : List Asteroid)
  | hit (shooterId weaponType : String) (kdir : ℚ × ℚ)
  | disconnect
  | fireTimer (rx ry : ℚ)
deriving Repr, DecidableEq

/-- Count of death transitions recorded in an event list. -/
def countDeaths (evs : List Ev) : Nat :=
  (evs.filter (fun ev =>
    match ev with
    | Ev.playerDied _ => true
    | Ev.playerKilled _ _ => true
    | _ => false)).length

/-- Count of applied respawns recorded in an event list. -/
def countRespawns (evs : List Ev) : Nat :=
  (evs.filter (fun ev =>
    match ev with
    | Ev.playerRespawned _ _ _ _ => true
    | _ => false)).length

/-- The reset a firing respawn timer applies, by scheduling path: the
`playerHit` timer (server.js lines 442-455) also zeroes rotation, the
`handlePlayerDeath` timer (lines 234-250) does not. -/
def respawnReset (t : RTimer) (p : Player) (rx ry : ℚ) : Player :=
  match t with
  | RTimer.fromHit =>
    { p with
      health := PLAYER_HEALTH
      isAlive := true
      x := rx * GAME_WIDTH
      y := ry * GAME_HEIGHT
      rotation := 0
      velocityX := 0
      velocityY := 0 }
  | RTimer.fromDeath =>
    { p with
      health := PLAYER_HEALTH
      isAlive := true
      x := rx * GAME_WIDTH
      y := ry * GAME_HEIGHT
      velocityX := 0
      velocityY := 0 }

/-- One step of the death/respawn trace.  A `tick` schedules a
`fromDeath` timer iff the sweep produced a death transition (one
`playerDied` event, emitted exactly when `handlePlayerDeath` ran its
`setTimeout`); a killing `hit` schedules a `fromHit` timer; `disconnect`
removes the player but cancels nothing; `fireTimer` consumes the oldest
timer and applies its reset only if the player still exists. -/
def rStep (s : RState) (op : ROp) : RState × List Ev :=
  match op with
  | ROp.tick asts =>
    match s.player with
    | none => (s, [])
    | some p =>
      let r := checkCollisionsPlayer p asts
      let newTimers :=
        if countDeaths r.2 > 0 then s.pending ++ [RTimer.fromDeath]
        else s.pending
      ({ player := some r.1, pending := newTimers }, r.2)
  | ROp.hit sid w kdir =>
    match s.player with
    | none => (s, [])
    | some p =>
      let r := c1Step p (C1Op.hit sid w kdir)
      let newTimers :=
        if p.isAlive ∧ ¬r.1.isAlive then s.pending ++ [RTimer.fromHit]
        else s.pending
      ({ player := some r.1, pending := newTimers }, r.2)
  | ROp.disconnect => ({ player := none, pending := s.pending }, [])
  | ROp.fireTimer rx ry =>
    match s.pending with
    | [] => (s, [])
    | t :: rest =>
      match s.player with
      | none => ({ player := none, pending := rest }, [])
      | some p =>
        let p2 := respawnReset t p rx ry
        ({ player := some p2, pending := rest },
          [Ev.playerRespawned p2.id p2.x p2.y p2.health])

/-- Run a death/respawn trace, accumulating events. -/
def rRun (s : RState) : List ROp → RState × List Ev
  | [] => (s, [])
  | op :: ops =>
    let r := rStep s op
    let rest := rRun r.1 ops
    (rest.1, r.2 ++ rest.2)

/-! ### Client-side id-set reconciliation (C5)

Only entity-id membership is modelled: `addPlayer` / `addAsteroid`
insert the id into the corresponding client map, the removal loops
delete ids absent from the received snapshot. -/

/-- The client's locally known entity ids. -/
structure ClientIds where
  players : List String
  asteroids : List String
deriving Repr, DecidableEq

/-- The snapshot forEach loops that add every received entity missing
locally (in snapshot order). -/
def addMissing (localIds received : List String) : List String :=
  received.foldl (fun acc i => if acc.contains i then acc else acc ++ [i])
    localIds

/-- The removal loop that deletes every local entity absent from the
received snapshot. -/
def removeAbsent (localIds received : List String) : List String :=
  localIds.filter (fun i => received.contains i)

/-- Id-membership effect of `handleGameState` (game.js lines 689-746):
both the player and the asteroid maps are synchronized to the snapshot
(add missing, then remove absent). -/
def handleGameStateIds (c : ClientIds) (snapPlayers snapAsts : List String) :
    ClientIds :=
  { players := removeAbsent (addMissing c.players snapPlayers) snapPlayers
    asteroids := removeAbsent (addMissing c.asteroids snapAsts) snapAsts }

/-- Id-membership effect of the `gameUpdate` handler (game.js lines
624-681): asteroids are synchronized to the snapshot, but the player
loop only updates interpolation targets and health of already-known
players — it never adds a missing player nor removes a stale one. -/
def gameUpdateIds (c : ClientIds) (_snapPlayers snapAsts : List String) :
    ClientIds :=
  { players := c.players
    asteroids := removeAbsent (addMissing c.asteroids snapAsts) snapAsts }

/-! ### Client-side interpolation (C9) -/

/-- One render frame of position interpolation for a remote player
(game.js lines 1193-1195): `Phaser.Math.Linear(x, target, 0.2)
= x + 0.2 * (target - x)`. -/
def lerpStep (target x : ℚ) : ℚ := x + (target - x) * (1/5)

/-- Position after `n` render frames with a fixed target. -/
def lerpIter (target x0 : ℚ) : Nat → ℚ
  | 0 => x0
  | n + 1 => lerpStep target (lerpIter target x0 n)

/-- A position inside the world rectangle. -/
def InBounds (x y : ℚ) : Prop :=
  0 ≤ x ∧ x ≤ GAME_WIDTH ∧ 0 ≤ y ∧ y ≤ GAME_HEIGHT

/-! ### Concrete asteroid-death trace (C3)

A player whose rotation was set to 1 by a movement intent and whose
health was worn down to 10 collides with an overlapping asteroid, dies,
and the `handlePlayerDeath` respawn timer fires. -/

/-- The player before the killing asteroid collision. -/
def c3p0 : Player :=
  { id := "A", name := "Ada", x := 500, y := 500, rotation := 1,
    velocityX := 0, velocityY := 0, score := 0, kills := 0,
    health := 10, isAlive := true }

/-- An asteroid overlapping the player. -/
def c3ast : Asteroid :=
  { id := "r", x := 500, y := 500, rotation := 0, size := 2,
    variation := 0, velocityX := 0, velocityY := 0 }

/-- The player right after the death transition. -/
def c3pDead : Player :=
  { id := "A", name := "Ada", x := 500, y := 500, rotation := 1,
    velocityX := 0, velocityY := 0, score := 0, kills := 0,
    health := 0, isAlive := false }

/-- The player after the `handlePlayerDeath` respawn fires: rotation is
still 1. -/
def c3pResp : Player :=
  { id := "A", name := "Ada", x := 1000, y := 750, rotation := 1,
    velocityX := 0, velocityY := 0, score := 0, kills := 0,
    health := 100, isAlive := true }

/-- The two-step trace: killing collision tick, then the timer firing. -/
def c3trace : RState × List Ev :=
  rRun { player := some c3p0, pending := [] }
    [ROp.tick [c3ast], ROp.fireTimer (1/2) (1/2)]

/-! ### End-to-end laser scenario (C7)

Player A at `(1000, 750)` is shot four times by player B at `(400, 750)`
with the laser.  Shooter and target share the y-coordinate, so the
square-root-normalised knockback direction is exactly `(1, 0)` at every
step (the positive x-offsets are 600, 630, 660, 690). -/

/-- Initial player map of the laser scenario. -/
def c7m0 : List (String × Player) :=
  [("A", joinPlayer "A" "Ana" (1/2) (1/2)),
   ("B", joinPlayer "B" "Bob" (1/5) (1/2))]

/-- State after the first laser hit. -/
def c7r1 : PlayerHitResult := playerHitHandler c7m0 "A" "B" "laser" (1, 0)

/-- State after the second laser hit. -/
def c7r2 : PlayerHitResult :=
  playerHitHandler c7r1.players "A" "B" "laser" (1, 0)

/-- State after the third laser hit. -/
def c7r3 : PlayerHitResult :=
  playerHitHandler c7r2.players "A" "B" "laser" (1, 0)

/-- State after the fourth (killing) laser hit. -/
def c7r4 : PlayerHitResult :=
  playerHitHandler c7r3.players "A" "B" "laser" (1, 0)

/-- Player A's record during the scenario. -/
def c7A (x : ℚ) (h : Int) (alive : Bool) : Player :=
  { id := "A", name := "Ana", x := x, y := 750, rotation := 0,
    velocityX := 0, velocityY := 0, score := 0, kills := 0,
    health := h, isAlive := alive }

/-- Player B's record during the scenario. -/
def c7B (k : Int) : Player :=
  { id := "B", name := "Bob", x := 400, y := 750, rotation := 0,
    velocityX := 0, velocityY := 0, score := 0, kills := k,
    health := 100, isAlive := true }

/-- Expected result of the first hit. -/
def c7R1 : PlayerHitResult :=
  { players := [("A", c7A 1030 75 true), ("B", c7B 0)],
    events := [Ev.playerHealthUpdate "A" 75 1030 750],
    respawnScheduled := false }

/-- Expected result of the second hit. -/
def c7R2 : PlayerHitResult :=
  { players := [("A", c7A 1060 50 true), ("B", c7B 0)],
    events := [Ev.playerHealthUpdate "A" 50 1060 750],
    respawnScheduled := false }

/-- Expected result of the third hit. -/
def c7R3 : PlayerHitResult :=
  { players := [("A", c7A 1090 25 true), ("B", c7B 0)],
    events := [Ev.playerHealthUpdate "A" 25 1090 750],
    respawnScheduled := false }

/-- Expected result of the killing hit: A dead at health 0, B credited
with the kill. -/
def c7R4 : PlayerHitResult :=
  { players := [("A", c7A 1120 0 false), ("B", c7B 1)],
    events := [Ev.playerKilled "A" "B", Ev.killsUpdate "B" 1],
    respawnScheduled := true }

/-- A player used to check the self-kill-credit exclusion: 5 kills,
health 10, about to self-hit lethally. -/
def c7C : Player :=
  { id := "C", name := "Cy", x := 500, y := 500, rotation := 0,
    velocityX := 0, velocityY := 0, score := 0, kills := 5,
    health := 10, isAlive := true }

/-! ## Helper lemmas -/

/-- Updating a present key is observed by a subsequent lookup. -/
theorem lookupA_setA_self {α : Type} (m : List (String × α)) (k : String)
    (v : α) (p : α) (h : lookupA m k = some p) :
    lookupA (setA m k v) k = some v := by
  induction m with
  | nil => simp [lookupA] at h
  | cons kv rest ih =>
    obtain ⟨k2, v2⟩ := kv
    by_cases hk : k2 = k
    · subst hk
      show lookupA ((if k2 = k2 then (k2, v) else (k2, v2)) :: setA rest k2 v)
        k2 = some v
      rw [if_pos rfl]
      show (if k2 = k2 then some v else lookupA (setA rest k2 v) k2) = some v
      rw [if_pos rfl]
    · rw [lookupA, if_neg hk] at h
      show lookupA ((if k2 = k then (k, v) else (k2, v2)) :: setA rest k v) k
        = some v
      rw [if_neg hk, lookupA, if_neg hk]
      exact ih h

/-- The clamp lands in `[lo, hi]` whenever `lo ≤ hi`. -/
theorem clampQ_mem (lo hi v : ℚ) (h : lo ≤ hi) :
    lo ≤ clampQ lo hi v ∧ clampQ lo hi v ≤ hi := by
  constructor
  · exact le_max_left _ _
  · exact max_le h (min_le_left _ _)

/-- `addMissing` accumulates exactly the union of the two id lists. -/
theorem mem_addMissing (r : List String) :
    ∀ l i, i ∈ addMissing l r ↔ i ∈ l ∨ i ∈ r := by
  induction r with
  | nil => intro l i; simp [addMissing]
  | cons j rest ih =>
    intro l i
    show i ∈ addMissing (if l.contains j then l else l ++ [j]) rest ↔ _
    rw [ih]
    by_cases hj : j ∈ l
    · have hc : l.contains j = true := by simpa using hj
      simp only [hc, if_true]
      constructor
      · rintro (h | h)
        · exact Or.inl h
        · exact Or.inr (List.mem_cons_of_mem _ h)
      · rintro (h | h)
        · exact Or.inl h
        · rcases List.mem_cons.mp h with h | h
          · exact Or.inl (h ▸ hj)
          · exact Or.inr h
    · have hc : l.contains j = false := by simpa using hj
      simp only [hc, Bool.false_eq_true, if_false, List.mem_append,
        List.mem_singleton, List.mem_cons]
      tauto

/-- Add-missing-then-remove-absent synchronizes membership to the
received id list. -/
theorem mem_reconcile (l r : List String) (i : String) :
    i ∈ removeAbsent (addMissing l r) r ↔ i ∈ r := by
  unfold removeAbsent
  rw [List.mem_filter]
  constructor
  · rintro ⟨-, h⟩
    simpa using h
  · intro h
    exact ⟨(mem_addMissing r l i).mpr (Or.inr h), by simpa using h⟩

/-! ## C10 -/

/-- C10: `createAsteroid` defaults with JavaScript `||`, so a supplied
coordinate that is exactly 0 is replaced by a fresh random draw over the
whole world dimension, and a supplied velocity component that is exactly
0 is replaced by a fresh random velocity — in particular a fragment
whose computed burst velocity component is exactly 0 gets a random
velocity instead of 0. -/
theorem c10_createAsteroid_falsy_defaults (x y : ℚ) (size : Nat)
    (vx vy : Option ℚ) (r : AsteroidRand) (nid : String) :
    (createAsteroid 0 y size vx vy r nid).x = r.rx * GAME_WIDTH ∧
    (createAsteroid x 0 size vx vy r nid).y = r.ry * GAME_HEIGHT ∧
    (createAsteroid x y size (some 0) vy r nid).velocityX
      = (r.rvx - 1/2) * (50 - size * 5) ∧
    (createAsteroid x y size vx (some 0) r nid).velocityY
      = (r.rvy - 1/2) * (50 - size * 5) := by
  refine ⟨rfl, rfl, ?_, ?_⟩ <;> simp [createAsteroid, jsOr]

/-! ## C5 -/

/-- C5 counterexample: the `gameUpdate` handler processes a full
snapshot (players `["p2"]`, no asteroids) against a client that locally
knows player `"p1"`; afterwards the local player id set is still
`["p1"]`, not the snapshot's `["p2"]` — the claimed set equality fails
on the `gameUpdate` path. -/
theorem c5_counterexample :
    (gameUpdateIds { players := ["p1"], asteroids := [] } ["p2"] []).players
      = ["p1"] ∧
    "p2" ∉ (gameUpdateIds { players := ["p1"], asteroids := [] }
      ["p2"] []).players ∧
    "p2" ∈ (["p2"] : List String) := by
  refine ⟨rfl, ?_, by decide⟩
  decide

/-- C5 amended: `handleGameState` synchronizes BOTH the player and the
asteroid id sets to the snapshot exactly; the `gameUpdate` handler
synchronizes only the asteroid id set and leaves the local player id
set unchanged (player membership is driven by
newPlayer/playerLeft/gameState events instead). -/
theorem c5_snapshot_reconciliation (c : ClientIds)
    (snapPlayers snapAsts : List String) :
    (∀ i, i ∈ (handleGameStateIds c snapPlayers snapAsts).players
      ↔ i ∈ snapPlayers) ∧
    (∀ i, i ∈ (handleGameStateIds c snapPlayers snapAsts).asteroids
      ↔ i ∈ snapAsts) ∧
    (gameUpdateIds c snapPlayers snapAsts).players = c.players ∧
    (∀ i, i ∈ (gameUpdateIds c snapPlayers snapAsts).asteroids
      ↔ i ∈ snapAsts) := by
  refine ⟨fun i => mem_reconcile _ _ _, fun i => mem_reconcile _ _ _,
    rfl, fun i => mem_reconcile _ _ _⟩

/-! ## C2 -/

/-- C2 counterexample: a `playerHit` intent whose shooter equals the
hit player (a bullet hitting its own owner) DOES damage the target: a
freshly joined player at health 100 self-hit with the default weapon
drops to health 80.  The handler never checks `shooterId` against
`hitPlayerId` before applying damage; only kill credit is guarded. -/
theorem c2_counterexample :
    (lookupA (playerHitHandler [("A", joinPlayer "A" "Ada" (1/4) (1/2))]
        "A" "A" "default" (0, 0)).players "A").map Player.health
      = some 80 ∧
    (joinPlayer "A" "Ada" (1/4) (1/2)).health = 100 := by
  decide

/-- C2 amended: a self-hit applies the full weapon damage to the owner;
what the self-hit case does exclude is knockback displacement (the
shooter-to-target vector is zero, so the position is only clamped) and
kill credit (the `kills` counter of the target is unchanged even when
the self-hit is lethal). -/
theorem c2_selfhit_damages_owner (m : List (String × Player))
    (pid w : String) (k : ℚ × ℚ) (p : Player)
    (hp : lookupA m pid = some p) (halive : p.isAlive = true) :
    (lookupA (playerHitHandler m pid pid w k).players pid).map Player.health
      = some (p.health - damageFor w) ∧
    (lookupA (playerHitHandler m pid pid w k).players pid).map Player.x
      = some (clampQ halfShipWidth (GAME_WIDTH - halfShipWidth) p.x) ∧
    (lookupA (playerHitHandler m pid pid w k).players pid).map Player.y
      = some (clampQ halfShipWidth (GAME_HEIGHT - halfShipWidth) p.y) ∧
    (lookupA (playerHitHandler m pid pid w k).players pid).map Player.kills
      = some p.kills := by
  have hkd : knockDir (some p) p k = (0, 0) := by
    show (if (p.x - p.x) ^ 2 + (p.y - p.y) ^ 2 > 0 then k else (0, 0))
      = (0, 0)
    rw [if_neg (by simp)]
  have hhit : applyHitDamage p (damageFor w) (0, 0)
      = { p with
          health := p.health - damageFor w
          x := clampQ halfShipWidth (GAME_WIDTH - halfShipWidth) p.x
          y := clampQ halfShipWidth (GAME_HEIGHT - halfShipWidth) p.y } := by
    simp [applyHitDamage]
  by_cases hkill : p.health - damageFor w ≤ 0
  · have hres : (playerHitHandler m pid pid w k).players
        = setA m pid
            { p with
              health := p.health - damageFor w
              x := clampQ halfShipWidth (GAME_WIDTH - halfShipWidth) p.x
              y := clampQ halfShipWidth (GAME_HEIGHT - halfShipWidth) p.y
              isAlive := false } := by
      simp only [playerHitHandler, hp, halive, if_true, hkd, hhit]
      rw [if_pos (by simpa using hkill), if_neg (by simp)]
    rw [hres, lookupA_setA_self m pid _ p hp]
    simp
  · have hres : (playerHitHandler m pid pid w k).players
        = setA m pid
            { p with
              health := p.health - damageFor w
              x := clampQ halfShipWidth (GAME_WIDTH - halfShipWidth) p.x
              y := clampQ halfShipWidth (GAME_HEIGHT - halfShipWidth) p.y } := by
      simp only [playerHitHandler, hp, halive, if_true, hkd, hhit]
      rw [if_neg (by simpa using hkill)]
    rw [hres, lookupA_setA_self m pid _ p hp]
    simp

/-! ## C6 -/

/-- C6: each of the four server-side writes of a player's position —
join spawn, movement-intent clamp, knockback clamp inside the
`playerHit` handler, respawn (either timer path) — leaves `x` in
`[0, GAME_WIDTH]` and `y` in `[0, GAME_HEIGHT]`, given that the random
draws lie in `[0, 1)`. -/
theorem c6_positions_in_bounds (sid pname : String) (rx ry : ℚ)
    (hrx0 : 0 ≤ rx) (hrx1 : rx < 1) (hry0 : 0 ≤ ry) (hry1 : ry < 1)
    (p : Player) (mx my mrot mvx mvy : ℚ) (d : Int) (k : ℚ × ℚ)
    (t : RTimer) :
    InBounds (joinPlayer sid pname rx ry).x (joinPlayer sid pname rx ry).y ∧
    (p.isAlive = true →
      InBounds (playerMovementHandler p mx my mrot mvx mvy).x
        (playerMovementHandler p mx my mrot mvx mvy).y) ∧
    InBounds (applyHitDamage p d k).x (applyHitDamage p d k).y ∧
    InBounds (respawnReset t p rx ry).x (respawnReset t p rx ry).y := by
  have hW : (0:ℚ) ≤ GAME_WIDTH := by norm_num [GAME_WIDTH]
  have hH : (0:ℚ) ≤ GAME_HEIGHT := by norm_num [GAME_HEIGHT]
  have hx : 0 ≤ rx * GAME_WIDTH ∧ rx * GAME_WIDTH ≤ GAME_WIDTH := by
    refine ⟨mul_nonneg hrx0 hW, ?_⟩
    calc rx * GAME_WIDTH ≤ 1 * GAME_WIDTH :=
          mul_le_mul_of_nonneg_right hrx1.le hW
      _ = GAME_WIDTH := one_mul _
  have hy : 0 ≤ ry * GAME_HEIGHT ∧ ry * GAME_HEIGHT ≤ GAME_HEIGHT := by
    refine ⟨mul_nonneg hry0 hH, ?_⟩
    calc ry * GAME_HEIGHT ≤ 1 * GAME_HEIGHT :=
          mul_le_mul_of_nonneg_right hry1.le hH
      _ = GAME_HEIGHT := one_mul _
  have hcx : ∀ v : ℚ,
      0 ≤ clampQ halfShipWidth (GAME_WIDTH - halfShipWidth) v ∧
      clampQ halfShipWidth (GAME_WIDTH - halfShipWidth) v ≤ GAME_WIDTH := by
    intro v
    have h := clampQ_mem halfShipWidth (GAME_WIDTH - halfShipWidth) v
      (by norm_num [halfShipWidth, GAME_WIDTH])
    constructor
    · linarith [h.1, show (0:ℚ) ≤ halfShipWidth by norm_num [halfShipWidth]]
    · linarith [h.2, show (0:ℚ) ≤ halfShipWidth by norm_num [halfShipWidth]]
  have hcy : ∀ v : ℚ,
      0 ≤ clampQ halfShipWidth (GAME_HEIGHT - halfShipWidth) v ∧
      clampQ halfShipWidth (GAME_HEIGHT - halfShipWidth) v ≤ GAME_HEIGHT := by
    intro v
    have h := clampQ_mem halfShipWidth (GAME_HEIGHT - halfShipWidth) v
      (by norm_num [halfShipWidth, GAME_HEIGHT])
    constructor
    · linarith [h.1, show (0:ℚ) ≤ halfShipWidth by norm_num [halfShipWidth]]
    · linarith [h.2, show (0:ℚ) ≤ halfShipWidth by norm_num [halfShipWidth]]
  refine ⟨⟨hx.1, hx.2, hy.1, hy.2⟩, ?_, ?_, ?_⟩
  · intro halive
    simp only [playerMovementHandler, halive, if_true]
    exact ⟨(hcx mx).1, (hcx mx).2, (hcy my).1, (hcy my).2⟩
  · exact ⟨(hcx _).1, (hcx _).2, (hcy _).1, (hcy _).2⟩
  · cases t <;>
      exact ⟨hx.1, hx.2, hy.1, hy.2⟩

/-- C2 witness: lethal-free self-hit at a concrete input. -/
theorem c2_selfhit_witness :
    (lookupA (playerHitHandler [("A", joinPlayer "A" "Ada" (1/4) (1/2))]
        "A" "A" "laser" (3, 7)).players "A").map Player.health
      = some ((joinPlayer "A" "Ada" (1/4) (1/2)).health - damageFor "laser") :=
  (c2_selfhit_damages_owner [("A", joinPlayer "A" "Ada" (1/4) (1/2))]
    "A" "laser" (3, 7) (joinPlayer "A" "Ada" (1/4) (1/2))
    (by rfl) (by rfl)).1

/-- C6 witness: the join-spawn write at concrete random draws. -/
theorem c6_witness :
    InBounds (joinPlayer "A" "Ada" (1/4) (1/2)).x
      (joinPlayer "A" "Ada" (1/4) (1/2)).y :=
  (c6_positions_in_bounds "A" "Ada" (1/4) (1/2) (by norm_num) (by norm_num)
    (by norm_num) (by norm_num) (joinPlayer "A" "Ada" (1/4) (1/2))
    0 0 0 0 0 20 (1, 0) RTimer.fromHit).1

/-! ## C9 -/

/-- One interpolation frame moves the offset to `4/5` of itself. -/
theorem lerpStep_sub (t x : ℚ) : lerpStep t x - t = (4/5) * (x - t) := by
  rw [lerpStep]; ring

/-- Closed form of the offset after `n` frames. -/
theorem lerpIter_sub (t x0 : ℚ) (n : Nat) :
    lerpIter t x0 n - t = (4/5) ^ n * (x0 - t) := by
  induction n with
  | zero => simp [lerpIter]
  | succ n ih =>
    show lerpStep t (lerpIter t x0 n) - t = _
    rw [lerpStep_sub, ih, pow_succ]
    ring

/-- C9: with a fixed interpolation target `t`, the per-frame blend by
factor `0.2` converges monotonically: the distance to the target never
increases frame to frame, the iterate never crosses the target (no
overshoot, hence no oscillation), and for any `ε > 0` the iterate is
within `ε` of the target from some frame on. -/
theorem c9_interpolation_converges (t x0 ε : ℚ) (hε : 0 < ε) :
    (∀ n, |lerpIter t x0 (n + 1) - t| ≤ |lerpIter t x0 n - t|) ∧
    (∀ n, (x0 ≤ t → lerpIter t x0 n ≤ t) ∧ (t ≤ x0 → t ≤ lerpIter t x0 n)) ∧
    (∃ N, ∀ n, N ≤ n → |lerpIter t x0 n - t| < ε) := by
  have habs : ∀ n, |lerpIter t x0 n - t| = (4/5) ^ n * |x0 - t| := by
    intro n
    rw [lerpIter_sub, abs_mul, abs_pow,
      show |(4/5 : ℚ)| = 4/5 from by norm_num]
  refine ⟨?_, ?_, ?_⟩
  · intro n
    rw [habs, habs, pow_succ]
    have h1 : (0:ℚ) ≤ (4/5) ^ n := by positivity
    have h2 : (0:ℚ) ≤ |x0 - t| := abs_nonneg _
    nlinarith
  · intro n
    constructor
    · intro hle
      have := lerpIter_sub t x0 n
      have h1 : (0:ℚ) ≤ (4/5) ^ n := by positivity
      nlinarith
    · intro hle
      have := lerpIter_sub t x0 n
      have h1 : (0:ℚ) ≤ (4/5) ^ n := by positivity
      nlinarith
  · by_cases hx : x0 = t
    · refine ⟨0, fun n _ => ?_⟩
      rw [habs, hx]
      simpa using by positivity
    · have hd : 0 < |x0 - t| := abs_pos.mpr (sub_ne_zero.mpr hx)
      obtain ⟨N, hN⟩ := exists_pow_lt_of_lt_one
        (div_pos hε hd) (show (4/5 : ℚ) < 1 by norm_num)
      refine ⟨N, fun n hn => ?_⟩
      rw [habs]
      have hmono : (4/5 : ℚ) ^ n ≤ (4/5) ^ N :=
        pow_le_pow_of_le_one (by norm_num) (by norm_num) hn
      have : (4/5 : ℚ) ^ n < ε / |x0 - t| := lt_of_le_of_lt hmono hN
      calc (4/5 : ℚ) ^ n * |x0 - t| < (ε / |x0 - t|) * |x0 - t| := by
            exact mul_lt_mul_of_pos_right this hd
        _ = ε := div_mul_cancel₀ ε (ne_of_gt hd)

/-- C9 witness: convergence at a concrete target, start and epsilon. -/
theorem c9_witness :
    ∃ N, ∀ n, N ≤ n → |lerpIter 10 0 n - 10| < (1 : ℚ) :=
  (c9_interpolation_converges 10 0 1 (by norm_num)).2.2

/-! ## C4 -/

/-- C4 counterexample: a size-1 asteroid at `(10, 700)` destroyed with
fragment angle π (cosine −1, sine 0) produces a child whose supplied
spawn x-coordinate is `10 + (−1)·10 = 0`; `createAsteroid`'s falsiness
defaulting replaces it by a fresh random draw (here `19/20·2000 =
1900`), so that child is created 1890 units away from the parent — not
near the parent's last position. -/
theorem c4_counterexample :
    (handleAsteroidHit
      [("a1", { id := "a1", x := 10, y := 700, rotation := 0, size := 1,
                variation := 0, velocityX := 0, velocityY := 0 })]
      [] "a1" false "health" 0
      { c := -1, s := 0,
        rand0 := { rx := 19/20, ry := 1/2, rrot := 0, rvar := 0,
                   rvx := 1/2, rvy := 1/2 },
        rand1 := { rx := 1/2, ry := 1/2, rrot := 0, rvar := 0,
                   rvx := 1/2, rvy := 1/2 },
        id0 := "c0", id1 := "c1" }).created.length = 2 ∧
    (∃ ch ∈ (handleAsteroidHit
      [("a1", { id := "a1", x := 10, y := 700, rotation := 0, size := 1,
                variation := 0, velocityX := 0, velocityY := 0 })]
      [] "a1" false "health" 0
      { c := -1, s := 0,
        rand0 := { rx := 19/20, ry := 1/2, rrot := 0, rvar := 0,
                   rvx := 1/2, rvy := 1/2 },
        rand1 := { rx := 1/2, ry := 1/2, rrot := 0, rvar := 0,
                   rvx := 1/2, rvy := 1/2 },
        id0 := "c0", id1 := "c1" }).created,
      ch.x - 10 = 1890) ∧
    ¬ ((1890 : ℚ) ≤ 10) := by
  refine ⟨by decide, ⟨_, List.mem_cons_self _ _, ?_⟩, by norm_num⟩
  show (createAsteroid (10 + (-1) * 10) (700 + (-0) * 10) (1 - 1)
      (some (0 * (1/2) + (-1) * 50)) (some (0 * (1/2) + (-0) * 50))
      { rx := 19/20, ry := 1/2, rrot := 0, rvar := 0, rvx := 1/2, rvy := 1/2 }
      "c0").x - 10 = 1890
  norm_num [createAsteroid, GAME_WIDTH]

/-- C4 amended: a hit on an existing asteroid of size > 0 creates
exactly 2 children of size exactly one less; size 0 yields no children;
a hit naming a nonexistent id changes nothing.  The children spawn
within 10 units (per axis) of the parent's last position PROVIDED the
computed spawn coordinates are nonzero — a computed coordinate of
exactly 0 is re-randomized over the whole world by `createAsteroid`'s
falsiness defaulting. -/
theorem c4_asteroid_split (am : List (String × Asteroid))
    (pm : List (Nat × Powerup)) (aid : String) (roll : Bool)
    (pt : String) (pid : Nat) (fr : FragRand) :
    (∀ a, lookupA am aid = some a → 0 < a.size →
      (handleAsteroidHit am pm aid roll pt pid fr).created.length = 2 ∧
      ∀ ch ∈ (handleAsteroidHit am pm aid roll pt pid fr).created,
        ch.size = a.size - 1) ∧
    (∀ a, lookupA am aid = some a → 0 < a.size →
      fr.c ^ 2 + fr.s ^ 2 = 1 →
      a.x + fr.c * 10 ≠ 0 → a.y + fr.s * 10 ≠ 0 →
      a.x + -fr.c * 10 ≠ 0 → a.y + -fr.s * 10 ≠ 0 →
      ∀ ch ∈ (handleAsteroidHit am pm aid roll pt pid fr).created,
        |ch.x - a.x| ≤ 10 ∧ |ch.y - a.y| ≤ 10) ∧
    (∀ a, lookupA am aid = some a → a.size = 0 →
      (handleAsteroidHit am pm aid roll pt pid fr).created = []) ∧
    (lookupA am aid = none →
      handleAsteroidHit am pm aid roll pt pid fr
        = { asteroids := am, powerups := pm, created := [], events := [] }) := by
  refine ⟨?_, ?_, ?_, ?_⟩
  · intro a ha hsize
    simp only [handleAsteroidHit, ha, hsize, if_pos hsize]
    refine ⟨rfl, ?_⟩
    intro ch hch
    rcases List.mem_cons.mp hch with rfl | hch
    · rfl
    · rcases List.mem_cons.mp hch with rfl | hch
      · rfl
      · simp at hch
  · intro a ha hsize hunit hx0 hy0 hx1 hy1
    have hc : |fr.c| ≤ 1 := by
      nlinarith [abs_nonneg fr.c, sq_abs fr.c, sq_nonneg fr.s]
    have hs : |fr.s| ≤ 1 := by
      nlinarith [abs_nonneg fr.s, sq_abs fr.s, sq_nonneg fr.c]
    have hnc : |-fr.c| ≤ 1 := by rwa [abs_neg]
    have hns : |-fr.s| ≤ 1 := by rwa [abs_neg]
    have key : ∀ c s : ℚ, |c| ≤ 1 → |s| ≤ 1 →
        a.x + c * 10 ≠ 0 → a.y + s * 10 ≠ 0 →
        ∀ r nid vx vy,
          |(createAsteroid (a.x + c * 10) (a.y + s * 10) (a.size - 1)
              vx vy r nid).x - a.x| ≤ 10 ∧
          |(createAsteroid (a.x + c * 10) (a.y + s * 10) (a.size - 1)
              vx vy r nid).y - a.y| ≤ 10 := by
      intro c s hcle hsle hxne hyne r nid vx vy
      constructor
      · show |(if a.x + c * 10 = 0 then r.rx * GAME_WIDTH else a.x + c * 10)
          - a.x| ≤ 10
        rw [if_neg hxne, show a.x + c * 10 - a.x = c * 10 from by ring,
          abs_mul, show |(10:ℚ)| = 10 from by norm_num]
        nlinarith [abs_nonneg c]
      · show |(if a.y + s * 10 = 0 then r.ry * GAME_HEIGHT else a.y + s * 10)
          - a.y| ≤ 10
        rw [if_neg hyne, show a.y + s * 10 - a.y = s * 10 from by ring,
          abs_mul, show |(10:ℚ)| = 10 from by norm_num]
        nlinarith [abs_nonneg s]
    simp only [handleAsteroidHit, ha, if_pos hsize]
    intro ch hch
    rcases List.mem_cons.mp hch with rfl | hch
    · exact key fr.c fr.s hc hs hx0 hy0 fr.rand0 fr.id0 _ _
    · rcases List.mem_cons.mp hch with rfl | hch
      · exact key (-fr.c) (-fr.s) hnc hns hx1 hy1 fr.rand1 fr.id1 _ _
      · simp at hch
  · intro a ha hsize
    simp only [handleAsteroidHit, ha, hsize]
    rfl
  · intro ha
    simp only [handleAsteroidHit, ha]

/-! ## C7 -/

/-- The laser entry of the damage table, evaluated. -/
theorem damageFor_laser : damageFor "laser" = 25 := rfl

/-- C7: damage is 20 for the default weapon (any type other than
`spread`/`laser`), 15 for spread, 25 for laser; a player at health 100
hit by four of B's laser shots reaches 75, 50, 25, 0; the fourth hit
kills, emits `playerKilled` with B as killer and increments B's kill
counter from 0 to exactly 1; the respawn timer (RESPAWN_TIME = 3000 ms)
then restores health to 100 and broadcasts the respawn.  A lethal
SELF-hit leaves the kill counter unchanged.  The `(1, 0)` knockback
directions used are the true sqrt-normalised shooter-to-target vectors,
witnessed by the trailing `IsKnockDir` conjuncts. -/
theorem c7_damage_table_and_laser_scenario :
    damageFor "normal" = 20 ∧ damageFor "spread" = 15 ∧
    damageFor "laser" = 25 ∧ RESPAWN_TIME = 3000 ∧
    (lookupA c7r1.players "A").map Player.health = some 75 ∧
    (lookupA c7r2.players "A").map Player.health = some 50 ∧
    (lookupA c7r3.players "A").map Player.health = some 25 ∧
    (lookupA c7r4.players "A").map Player.health = some 0 ∧
    (lookupA c7r4.players "A").map Player.isAlive = some false ∧
    c7r3.respawnScheduled = false ∧
    c7r4.events = [Ev.playerKilled "A" "B", Ev.killsUpdate "B" 1] ∧
    (lookupA c7r3.players "B").map Player.kills = some 0 ∧
    (lookupA c7r4.players "B").map Player.kills = some 1 ∧
    c7r4.respawnScheduled = true ∧
    (respawnFromHit c7r4.players "A" (1/2) (1/2)).2
      = [Ev.playerRespawned "A" 1000 750 100] ∧
    (lookupA (respawnFromHit c7r4.players "A" (1/2) (1/2)).1 "A").map
      Player.health = some PLAYER_HEALTH ∧
    (lookupA (playerHitHandler [("C", c7C)] "C" "C" "laser" (0, 0)).players
      "C").map Player.kills = some 5 ∧
    IsKnockDir (1000 - 400) (750 - 750) (1, 0) ∧
    IsKnockDir (1030 - 400) (750 - 750) (1, 0) ∧
    IsKnockDir (1060 - 400) (750 - 750) (1, 0) ∧
    IsKnockDir (1090 - 400) (750 - 750) (1, 0) := by
  have h1 : c7r1 = c7R1 := by
    simp only [c7r1, c7m0]
    simp [playerHitHandler, lookupA, knockDir, applyHitDamage,
      damageFor_laser, clampQ, setA, joinPlayer, c7A, c7B, c7R1,
      GAME_WIDTH, GAME_HEIGHT, halfShipWidth, knockbackForce, PLAYER_HEALTH]
    norm_num
  have h2 : c7r2 = c7R2 := by
    simp only [c7r2, h1]
    simp [playerHitHandler, lookupA, knockDir, applyHitDamage,
      damageFor_laser, clampQ, setA, c7A, c7B, c7R1, c7R2,
      GAME_WIDTH, GAME_HEIGHT, halfShipWidth, knockbackForce, PLAYER_HEALTH]
    norm_num
  have h3 : c7r3 = c7R3 := by
    simp only [c7r3, h2]
    simp [playerHitHandler, lookupA, knockDir, applyHitDamage,
      damageFor_laser, clampQ, setA, c7A, c7B, c7R2, c7R3,
      GAME_WIDTH, GAME_HEIGHT, halfShipWidth, knockbackForce, PLAYER_HEALTH]
    norm_num
  have h4 : c7r4 = c7R4 := by
    simp only [c7r4, h3]
    simp [playerHitHandler, lookupA, knockDir, applyHitDamage,
      damageFor_laser, clampQ, setA, c7A, c7B, c7R3, c7R4,
      GAME_WIDTH, GAME_HEIGHT, halfShipWidth, knockbackForce, PLAYER_HEALTH]
    norm_num
  have hresp : (respawnFromHit c7r4.players "A" (1/2) (1/2)).2
        = [Ev.playerRespawned "A" 1000 750 100] ∧
      (lookupA (respawnFromHit c7r4.players "A" (1/2) (1/2)).1 "A").map
        Player.health = some PLAYER_HEALTH := by
    rw [h4]
    constructor
    · simp [respawnFromHit, lookupA, c7R4, c7A, c7B, setA, PLAYER_HEALTH,
        GAME_WIDTH, GAME_HEIGHT]
      norm_num
    · simp [respawnFromHit, lookupA, c7R4, c7A, c7B, setA, PLAYER_HEALTH,
        GAME_WIDTH, GAME_HEIGHT]
  have hself : (lookupA (playerHitHandler [("C", c7C)] "C" "C" "laser"
        (0, 0)).players "C").map Player.kills = some 5 := by
    simp [playerHitHandler, lookupA, knockDir, applyHitDamage,
      damageFor_laser, clampQ, setA, c7C,
      GAME_WIDTH, GAME_HEIGHT, halfShipWidth, knockbackForce]
  have hkd : ∀ dx : ℚ, 0 < dx → IsKnockDir dx (750 - 750) (1, 0) := by
    intro dx hdx _
    exact ⟨by norm_num, dx, hdx, by ring, by ring⟩
  refine ⟨rfl, rfl, rfl, rfl, ?_, ?_, ?_, ?_, ?_, ?_, ?_, ?_, ?_, ?_,
    hresp.1, hresp.2, hself, hkd _ (by norm_num), hkd _ (by norm_num),
    hkd _ (by norm_num), hkd _ (by norm_num)⟩
  · rw [h1]; rfl
  · rw [h2]; rfl
  · rw [h3]; rfl
  · rw [h4]; rfl
  · rw [h4]; rfl
  · rw [h3]; rfl
  · rw [h4]; rfl
  · rw [h3]; rfl
  · rw [h4]; rfl
  · rw [h4]; rfl

/-! ## C8 -/

/-- C8: a `collectPowerup` intent is accepted only when the power-up is
still present AND the collecting player exists AND is alive.  When
accepted, the power-up is removed and its removal broadcast; a health
power-up heals 35 clamped so health never exceeds `PLAYER_HEALTH`; a
speed power-up sends a 3000 ms boost activation to the collecting
connection only.  In every failure mode (missing power-up, missing
player, dead player) the server state is unchanged and nothing is
emitted. -/
theorem c8_collect_powerup (pm : List (Nat × Powerup))
    (players : List (String × Player)) (sid : String) (pid : Nat) :
    (∀ pu p, pm.lookup pid = some pu → lookupA players sid = some p →
      p.isAlive = true → pu.type = "health" →
      powerupCollectedHandler pm players sid pid
        = (pm.filter (fun kv => kv.1 ≠ pid),
           setA players sid
             { p with health := min (p.health + 35) PLAYER_HEALTH },
           [Ev.powerupRemoved pid,
            Ev.playerHealthUpdate p.id (min (p.health + 35) PLAYER_HEALTH)
              p.x p.y]) ∧
      min (p.health + 35) PLAYER_HEALTH ≤ PLAYER_HEALTH) ∧
    (∀ pu p, pm.lookup pid = some pu → lookupA players sid = some p →
      p.isAlive = true → pu.type = "speed" →
      powerupCollectedHandler pm players sid pid
        = (pm.filter (fun kv => kv.1 ≠ pid), players,
           [Ev.powerupRemoved pid, Ev.activateSpeedBoost sid 3000])) ∧
    (pm.lookup pid = none →
      powerupCollectedHandler pm players sid pid = (pm, players, [])) ∧
    (lookupA players sid = none →
      powerupCollectedHandler pm players sid pid = (pm, players, [])) ∧
    (∀ p, lookupA players sid = some p → p.isAlive = false →
      powerupCollectedHandler pm players sid pid = (pm, players, [])) := by
  refine ⟨?_, ?_, ?_, ?_, ?_⟩
  · intro pu p h1 h2 h3 h4
    refine ⟨?_, min_le_right _ _⟩
    simp only [powerupCollectedHandler, h1, h2, h3, if_true, h4]
    rfl
  · intro pu p h1 h2 h3 h4
    simp only [powerupCollectedHandler, h1, h2, h3, if_true, h4]
    rw [if_neg (by simp)]
    rfl
  · intro h1
    rcases h2 : lookupA players sid with - | p <;>
      simp only [powerupCollectedHandler, h1, h2]
  · intro h2
    rcases h1 : pm.lookup pid with - | pu <;>
      simp only [powerupCollectedHandler, h1, h2]
  · intro p h2 h3
    rcases h1 : pm.lookup pid with - | pu <;>
      simp only [powerupCollectedHandler, h1, h2, h3, Bool.false_eq_true,
        if_false]

/-- C8 witness: a live player at health 80 collects a present health
power-up; the power-up is removed and health is clamped to 100. -/
theorem c8_witness :
    powerupCollectedHandler
      [(7, { id := 7, type := "health", x := 5, y := 6 })]
      [("A", { joinPlayer "A" "Ada" (1/4) (1/2) with health := 80 })] "A" 7
      = ([(7, { id := 7, type := "health", x := 5, y := 6 })].filter
          (fun kv => kv.1 ≠ 7),
         setA [("A", { joinPlayer "A" "Ada" (1/4) (1/2) with health := 80 })]
           "A" { joinPlayer "A" "Ada" (1/4) (1/2) with
                 health := min ((80 : Int) + 35) PLAYER_HEALTH },
         [Ev.powerupRemoved 7,
          Ev.playerHealthUpdate "A" (min ((80 : Int) + 35) PLAYER_HEALTH)
            ((1/4) * GAME_WIDTH) ((1/2) * GAME_HEIGHT)]) :=
  ((c8_collect_powerup
      [(7, { id := 7, type := "health", x := 5, y := 6 })]
      [("A", { joinPlayer "A" "Ada" (1/4) (1/2) with health := 80 })]
      "A" 7).1
    { id := 7, type := "health", x := 5, y := 6 }
    { joinPlayer "A" "Ada" (1/4) (1/2) with health := 80 }
    rfl rfl rfl rfl).1

/-! ## C1 -/

/-- Invariant preservation of one asteroid collision of the sweep:
health never exceeds the maximum, a living player keeps positive
health, and every broadcast health value is at most the maximum. -/
theorem collideOne_inv (pa : Player × List Ev) (a : Asteroid)
    (h1 : pa.1.health ≤ PLAYER_HEALTH)
    (h2 : pa.1.isAlive = true → 1 ≤ pa.1.health)
    (h3 : ∀ v ∈ observedHealths pa.2, v ≤ PLAYER_HEALTH) :
    (collideOne pa a).1.health ≤ PLAYER_HEALTH ∧
    ((collideOne pa a).1.isAlive = true → 1 ≤ (collideOne pa a).1.health) ∧
    ∀ v ∈ observedHealths (collideOne pa a).2, v ≤ PLAYER_HEALTH := by
  have hPH : PLAYER_HEALTH = 100 := rfl
  have hAD : ASTEROID_DAMAGE = 10 := rfl
  rw [hPH] at h1
  have hobs : ∀ v ∈ observedHealths
      (pa.2 ++ [Ev.playerDamaged pa.1.id (pa.1.health - ASTEROID_DAMAGE)]),
      v ≤ PLAYER_HEALTH := by
    intro v hv
    rw [observedHealths, List.filterMap_append] at hv
    rcases List.mem_append.mp hv with hv | hv
    · exact h3 v (by rw [observedHealths]; exact hv)
    · simp [observedHealths] at hv
      subst hv
      rw [hPH, hAD]
      omega
  simp only [collideOne, handlePlayerDeath]
  split
  · split
    · split
      · refine ⟨by simp [hPH], by simp, ?_⟩
        intro v hv
        simp only [observedHealths, List.filterMap_append] at hv
        rcases List.mem_append.mp hv with hv | hv
        · exact hobs v (by simpa [observedHealths, List.filterMap_append]
            using hv)
        · simp at hv
      · rename_i hdead
        refine ⟨?_, ?_, ?_⟩
        · simp [hPH, hAD]
          omega
        · intro hal
          simp at hal
          exact absurd hal hdead
        · intro v hv
          simp only [List.append_nil] at hv
          exact hobs v hv
    · rename_i hpos
      refine ⟨?_, ?_, fun v hv => hobs v hv⟩
      · simp [hPH, hAD]
        omega
      · intro hal
        simp at hal hpos ⊢
        omega
  · rw [hPH]
    exact ⟨h1, h2, h3⟩

/-- The whole collision sweep of one tick preserves the invariant. -/
theorem foldl_collideOne_inv (asts : List Asteroid) :
    ∀ pa : Player × List Ev,
      pa.1.health ≤ PLAYER_HEALTH →
      (pa.1.isAlive = true → 1 ≤ pa.1.health) →
      (∀ v ∈ observedHealths pa.2, v ≤ PLAYER_HEALTH) →
      (asts.foldl collideOne pa).1.health ≤ PLAYER_HEALTH ∧
      ((asts.foldl collideOne pa).1.isAlive = true →
        1 ≤ (asts.foldl collideOne pa).1.health) ∧
      ∀ v ∈ observedHealths (asts.foldl collideOne pa).2,
        v ≤ PLAYER_HEALTH := by
  induction asts with
  | nil => intro pa h1 h2 h3; exact ⟨h1, h2, h3⟩
  | cons a rest ih =>
    intro pa h1 h2 h3
    have h := collideOne_inv pa a h1 h2 h3
    exact ih (collideOne pa a) h.1 h.2.1 h.2.2

/-- Every weapon deals strictly positive damage. -/
theorem damageFor_pos (w : String) : 0 < damageFor w := by
  rw [damageFor]
  split
  · norm_num
  · split <;> norm_num

/-- Every single health-affecting operation preserves the invariant. -/
theorem c1Step_inv (p : Player) (op : C1Op)
    (h1 : p.health ≤ PLAYER_HEALTH) (h2 : p.isAlive = true → 1 ≤ p.health) :
    (c1Step p op).1.health ≤ PLAYER_HEALTH ∧
    ((c1Step p op).1.isAlive = true → 1 ≤ (c1Step p op).1.health) ∧
    ∀ v ∈ observedHealths (c1Step p op).2, v ≤ PLAYER_HEALTH := by
  have hPH : PLAYER_HEALTH = 100 := rfl
  cases op with
  | hit sid w kdir =>
    have hd := damageFor_pos w
    simp only [c1Step]
    by_cases hal : p.isAlive
    · rw [if_pos hal]
      by_cases hk : (applyHitDamage p (damageFor w) kdir).health ≤ 0
      · rw [if_pos hk]
        refine ⟨?_, by simp, by simp [observedHealths]⟩
        simp only [applyHitDamage] at hk ⊢
        simp only [hPH] at h1 ⊢
        (try simp)
        omega
      · rw [if_neg hk]
        simp only [applyHitDamage] at hk ⊢
        simp only [hPH] at h1 ⊢
        refine ⟨by omega, by omega, ?_⟩
        intro v hv
        simp [observedHealths] at hv
        omega
    · rw [if_neg hal]
      exact ⟨h1, fun hal2 => absurd hal2 hal, by simp [observedHealths]⟩
  | tick asts =>
    simp only [c1Step, checkCollisionsPlayer]
    by_cases hal : p.isAlive
    · rw [if_pos hal]
      exact foldl_collideOne_inv asts (p, []) h1 h2
        (by simp [observedHealths])
    · rw [if_neg hal]
      exact ⟨h1, fun hal2 => absurd hal2 hal, by simp [observedHealths]⟩
  | heal =>
    simp only [c1Step]
    by_cases hal : p.isAlive
    · rw [if_pos hal]
      refine ⟨by simp, ?_, ?_⟩
      · intro _
        have := h2 hal
        simp only [hPH] at this ⊢
        simp
        omega
      · intro v hv
        simp [observedHealths] at hv
        subst hv
        simp
    · rw [if_neg hal]
      exact ⟨h1, fun hal2 => absurd hal2 hal, by simp [observedHealths]⟩
  | respawn rx ry =>
    refine ⟨by simp [c1Step], by simp [c1Step, hPH], ?_⟩
    intro v hv
    simp [c1Step, observedHealths] at hv
    simp [hv]
  | snapshot =>
    refine ⟨h1, h2, ?_⟩
    intro v hv
    simp [c1Step, observedHealths] at hv
    subst hv
    exact h1

/-- A whole operation sequence preserves the invariant; every
observable health value along the way is at most the maximum. -/
theorem c1Run_inv (ops : List C1Op) :
    ∀ p : Player, p.health ≤ PLAYER_HEALTH →
      (p.isAlive = true → 1 ≤ p.health) →
      (c1Run p ops).1.health ≤ PLAYER_HEALTH ∧
      ((c1Run p ops).1.isAlive = true → 1 ≤ (c1Run p ops).1.health) ∧
      ∀ v ∈ observedHealths (c1Run p ops).2, v ≤ PLAYER_HEALTH := by
  induction ops with
  | nil =>
    intro p h1 h2
    exact ⟨h1, h2, by simp [c1Run, observedHealths]⟩
  | cons op rest ih =>
    intro p h1 h2
    have hs := c1Step_inv p op h1 h2
    have hr := ih (c1Step p op).1 hs.1 hs.2.1
    refine ⟨hr.1, hr.2.1, ?_⟩
    intro v hv
    simp only [c1Run] at hv
    rw [observedHealths, List.filterMap_append] at hv
    rcases List.mem_append.mp hv with hv | hv
    · exact hs.2.2 v (by rw [observedHealths]; exact hv)
    · exact hr.2.2 v (by rw [observedHealths]; exact hv)

/-- C1 counterexample: starting from a freshly joined player at health
100, four default-weapon hits (80, 60, 40, 20) followed by one laser
hit leave the server-side health at −5 — the kill path never clamps
health to 0 — and the −5 is then serialized into the 60 Hz `gameState`
broadcast, so health IS observably negative, contradicting the claimed
`[0, 100]` bound. -/
theorem c1_counterexample :
    (c1Run (joinPlayer "A" "Ada" (1/4) (1/4))
      [C1Op.hit "B" "default" (0, 0), C1Op.hit "B" "default" (0, 0),
       C1Op.hit "B" "default" (0, 0), C1Op.hit "B" "default" (0, 0),
       C1Op.hit "B" "laser" (0, 0), C1Op.snapshot]).1.health = -5 ∧
    (-5 : Int) ∈ observedHealths
      (c1Run (joinPlayer "A" "Ada" (1/4) (1/4))
        [C1Op.hit "B" "default" (0, 0), C1Op.hit "B" "default" (0, 0),
         C1Op.hit "B" "default" (0, 0), C1Op.hit "B" "default" (0, 0),
         C1Op.hit "B" "laser" (0, 0), C1Op.snapshot]).2 ∧
    ¬ ((0 : Int) ≤ -5) := by
  refine ⟨by decide, by decide, by norm_num⟩

/-- C1 amended: over every sequence of health-affecting server
operations from a fresh join, health never exceeds 100 and a LIVING
player's health is always in [1, 100]; every broadcast health value is
at most 100.  After a kill transition, however, health may be negative
(the bullet kill path and additional same-tick asteroid collisions do
not clamp it to 0) and that negative value is broadcast until respawn
restores 100. -/
theorem c1_health_bounds (sid pname : String) (rx ry : ℚ)
    (ops : List C1Op) :
    (c1Run (joinPlayer sid pname rx ry) ops).1.health ≤ PLAYER_HEALTH ∧
    ((c1Run (joinPlayer sid pname rx ry) ops).1.isAlive = true →
      1 ≤ (c1Run (joinPlayer sid pname rx ry) ops).1.health) ∧
    ∀ v ∈ observedHealths (c1Run (joinPlayer sid pname rx ry) ops).2,
      v ≤ PLAYER_HEALTH :=
  c1Run_inv ops (joinPlayer sid pname rx ry) (le_of_eq rfl)
    (fun _ => by norm_num [joinPlayer, PLAYER_HEALTH])

/-- C1 witness: the invariant applied to a concrete one-op run. -/
theorem c1_witness :
    (c1Run (joinPlayer "W" "Wit" (1/3) (1/3)) [C1Op.snapshot]).1.health
      ≤ PLAYER_HEALTH ∧
    ∀ v ∈ observedHealths
      (c1Run (joinPlayer "W" "Wit" (1/3) (1/3)) [C1Op.snapshot]).2,
      v ≤ PLAYER_HEALTH :=
  ⟨(c1_health_bounds "W" "Wit" (1/3) (1/3) [C1Op.snapshot]).1,
   (c1_health_bounds "W" "Wit" (1/3) (1/3) [C1Op.snapshot]).2.2⟩

/-! ## C3 -/

/-- Death counting distributes over event concatenation. -/
theorem countDeaths_append (l1 l2 : List Ev) :
    countDeaths (l1 ++ l2) = countDeaths l1 + countDeaths l2 := by
  simp [countDeaths, List.filter_append]

/-- Respawn counting distributes over event concatenation. -/
theorem countRespawns_append (l1 l2 : List Ev) :
    countRespawns (l1 ++ l2) = countRespawns l1 + countRespawns l2 := by
  simp [countRespawns, List.filter_append]

/-- A single collision step never emits a respawn event. -/
theorem countRespawns_collideOne (pa : Player × List Ev) (a : Asteroid) :
    countRespawns (collideOne pa a).2 = countRespawns pa.2 := by
  simp only [collideOne, handlePlayerDeath]
  split
  · split
    · split
      · simp [countRespawns_append, countRespawns]
      · simp [countRespawns_append, countRespawns]
    · simp [countRespawns_append, countRespawns]
  · rfl

/-- The collision fold never emits respawn events. -/
theorem countRespawns_fold (asts : List Asteroid) :
    ∀ pa : Player × List Ev,
      countRespawns (asts.foldl collideOne pa).2 = countRespawns pa.2 := by
  induction asts with
  | nil => intro pa; rfl
  | cons a rest ih =>
    intro pa
    rw [List.foldl_cons, ih, countRespawns_collideOne]

/-- A collision sweep never emits respawn events. -/
theorem countRespawns_check (p : Player) (asts : List Asteroid) :
    countRespawns (checkCollisionsPlayer p asts).2 = 0 := by
  unfold checkCollisionsPlayer
  split
  · rw [countRespawns_fold]
    rfl
  · rfl

/-- One trace step keeps `respawns applied + pending timers ≤ deaths`
(relative accounting): each death schedules exactly one timer, each
firing consumes one, and a firing on a removed player consumes its
timer without applying. -/
theorem rStep_count (s : RState) (op : ROp) :
    countRespawns (rStep s op).2 + (rStep s op).1.pending.length
      ≤ countDeaths (rStep s op).2 + s.pending.length := by
  cases op with
  | tick asts =>
    cases hp : s.player with
    | none => simp [rStep, hp, countRespawns, countDeaths]
    | some p =>
      simp only [rStep, hp]
      rw [countRespawns_check]
      split
      · rename_i hgt
        simp only [List.length_append, List.length_singleton]
        omega
      · omega
  | hit sid w kdir =>
    cases hp : s.player with
    | none => simp [rStep, hp, countRespawns, countDeaths]
    | some p =>
      by_cases hal : p.isAlive
      · by_cases hk : (applyHitDamage p (damageFor w) kdir).health ≤ 0
        · simp only [rStep, hp, c1Step, if_pos hal, if_pos hk]
          simp [countRespawns, countDeaths, hal]
          omega
        · simp only [rStep, hp, c1Step, if_pos hal, if_neg hk]
          simp [countRespawns, countDeaths, hal, applyHitDamage]
      · simp only [rStep, hp, c1Step, if_neg hal]
        simp [countRespawns, countDeaths, hal]
  | disconnect => simp [rStep, countRespawns, countDeaths]
  | fireTimer rx ry =>
    cases hpend : s.pending with
    | nil => simp [rStep, hpend, countRespawns, countDeaths]
    | cons t rest =>
      cases hp : s.player with
      | none =>
        simp [rStep, hpend, hp, countRespawns, countDeaths]
      | some p =>
        simp [rStep, hpend, hp, countRespawns, countDeaths]
        omega

/-- Accounting over a whole trace. -/
theorem rRun_count (ops : List ROp) :
    ∀ s : RState,
      countRespawns (rRun s ops).2 + (rRun s ops).1.pending.length
        ≤ countDeaths (rRun s ops).2 + s.pending.length := by
  induction ops with
  | nil => intro s; simp [rRun, countRespawns, countDeaths]
  | cons op rest ih =>
    intro s
    simp only [rRun]
    rw [countRespawns_append, countDeaths_append]
    have h1 := rStep_count s op
    have h2 := ih (rStep s op).1
    omega

/-- C3 counterexample: a player with rotation 1 dies by asteroid
collision; the `handlePlayerDeath` respawn timer fires (exactly one
respawn for the one death) and restores health and aliveness — but the
rotation is still 1, not reset to zero as the claim states. -/
theorem c3_counterexample :
    (c3trace.1.player).map Player.rotation = some 1 ∧
    (c3trace.1.player).map Player.health = some PLAYER_HEALTH ∧
    (c3trace.1.player).map Player.isAlive = some true ∧
    countDeaths c3trace.2 = 1 ∧
    countRespawns c3trace.2 = 1 ∧
    (1 : ℚ) ≠ 0 := by
  have h1 : rStep { player := some c3p0, pending := [] }
      (ROp.tick [c3ast])
      = ({ player := some c3pDead, pending := [RTimer.fromDeath] },
         [Ev.playerDamaged "A" 0, Ev.playerDied "A"]) := by
    simp [rStep, checkCollisionsPlayer, collideOne, handlePlayerDeath,
      countDeaths, PLAYER_RADIUS, asteroidRadius, ASTEROID_DAMAGE,
      c3p0, c3ast, c3pDead]
    norm_num
  have h2 : rStep { player := some c3pDead, pending := [RTimer.fromDeath] }
      (ROp.fireTimer (1/2) (1/2))
      = ({ player := some c3pResp, pending := [] },
         [Ev.playerRespawned "A" 1000 750 100]) := by
    simp [rStep, respawnReset, GAME_WIDTH, GAME_HEIGHT, PLAYER_HEALTH,
      c3pDead, c3pResp]
    norm_num
  have htr : c3trace
      = ({ player := some c3pResp, pending := [] },
         [Ev.playerDamaged "A" 0, Ev.playerDied "A",
          Ev.playerRespawned "A" 1000 750 100]) := by
    simp only [c3trace, rRun, h1, h2]
    rfl
  rw [htr]
  exact ⟨rfl, rfl, rfl, rfl, rfl, by norm_num⟩

/-- C3 amended: over any trace from a freshly joined player, the number
of applied respawns never exceeds the number of deaths (at most one
respawn per death; nothing is double-applied); a timer firing after the
player was removed is a no-op; a firing timer resets health to the
maximum, aliveness, a random in-bounds position and zero velocity — and
the `playerHit`-path timer also zeroes rotation, while the
`handlePlayerDeath`-path timer leaves rotation unchanged. -/
theorem c3_respawn_at_most_once (sid pname : String) (rx ry : ℚ)
    (ops : List ROp) (s : RState) (p : Player)
    (hrx0 : 0 ≤ rx) (hrx1 : rx < 1) (hry0 : 0 ≤ ry) (hry1 : ry < 1) :
    countRespawns (rRun ⟨some (joinPlayer sid pname rx ry), []⟩ ops).2
      ≤ countDeaths (rRun ⟨some (joinPlayer sid pname rx ry), []⟩ ops).2 ∧
    (s.player = none → (rStep s (ROp.fireTimer rx ry)).1.player = none ∧
      (rStep s (ROp.fireTimer rx ry)).2 = []) ∧
    ((respawnReset RTimer.fromHit p rx ry).health = PLAYER_HEALTH ∧
     (respawnReset RTimer.fromHit p rx ry).isAlive = true ∧
     InBounds (respawnReset RTimer.fromHit p rx ry).x
       (respawnReset RTimer.fromHit p rx ry).y ∧
     (respawnReset RTimer.fromHit p rx ry).rotation = 0 ∧
     (respawnReset RTimer.fromHit p rx ry).velocityX = 0 ∧
     (respawnReset RTimer.fromHit p rx ry).velocityY = 0) ∧
    ((respawnReset RTimer.fromDeath p rx ry).health = PLAYER_HEALTH ∧
     (respawnReset RTimer.fromDeath p rx ry).isAlive = true ∧
     InBounds (respawnReset RTimer.fromDeath p rx ry).x
       (respawnReset RTimer.fromDeath p rx ry).y ∧
     (respawnReset RTimer.fromDeath p rx ry).velocityX = 0 ∧
     (respawnReset RTimer.fromDeath p rx ry).velocityY = 0 ∧
     (respawnReset RTimer.fromDeath p rx ry).rotation = p.rotation) := by
  have hW : (0:ℚ) ≤ GAME_WIDTH := by norm_num [GAME_WIDTH]
  have hH : (0:ℚ) ≤ GAME_HEIGHT := by norm_num [GAME_HEIGHT]
  have hb : InBounds (rx * GAME_WIDTH) (ry * GAME_HEIGHT) := by
    refine ⟨mul_nonneg hrx0 hW, ?_, mul_nonneg hry0 hH, ?_⟩
    · calc rx * GAME_WIDTH ≤ 1 * GAME_WIDTH :=
            mul_le_mul_of_nonneg_right hrx1.le hW
        _ = GAME_WIDTH := one_mul _
    · calc ry * GAME_HEIGHT ≤ 1 * GAME_HEIGHT :=
            mul_le_mul_of_nonneg_right hry1.le hH
        _ = GAME_HEIGHT := one_mul _
  refine ⟨?_, ?_, ?_, ?_⟩
  · have h := rRun_count ops ⟨some (joinPlayer sid pname rx ry), []⟩
    simp only [List.length_nil] at h
    omega
  · intro hnone
    cases hpend : s.pending with
    | nil => simp [rStep, hpend, hnone]
    | cons t rest => simp [rStep, hpend, hnone]
  · exact ⟨rfl, rfl, hb, rfl, rfl, rfl⟩
  · exact ⟨rfl, rfl, hb, rfl, rfl, rfl⟩

/-- C3 witness: the reset contents at a concrete player and draws. -/
theorem c3_witness :
    (respawnReset RTimer.fromHit c3p0 (1/2) (1/2)).rotation = 0 ∧
    (respawnReset RTimer.fromDeath c3p0 (1/2) (1/2)).rotation
      = c3p0.rotation ∧
    (respawnReset RTimer.fromHit c3p0 (1/2) (1/2)).health
      = PLAYER_HEALTH :=
  ⟨(c3_respawn_at_most_once "A" "Ada" (1/2) (1/2) [] ⟨none, []⟩ c3p0
      (by norm_num) (by norm_num) (by norm_num) (by norm_num)).2.2.1.2.2.2.1,
   (c3_respawn_at_most_once "A" "Ada" (1/2) (1/2) [] ⟨none, []⟩ c3p0
      (by norm_num) (by norm_num) (by norm_num)
      (by norm_num)).2.2.2.2.2.2.2.2,
   (c3_respawn_at_most_once "A" "Ada" (1/2) (1/2) [] ⟨none, []⟩ c3p0
      (by norm_num) (by norm_num) (by norm_num) (by norm_num)).2.2.1.1⟩

/-- C4 witness: an in-range split of a large asteroid with fragment
angle cosine 3/5, sine 4/5 keeps both children within 10 units of the
parent per axis. -/
theorem c4_witness :
    ∀ ch ∈ (handleAsteroidHit
      [("b", { id := "b", x := 100, y := 100, rotation := 0, size := 2,
               variation := 1, velocityX := 4, velocityY := -6 })]
      [] "b" true "health" 7
      { c := 3/5, s := 4/5,
        rand0 := { rx := 1/3, ry := 1/3, rrot := 0, rvar := 0,
                   rvx := 1/3, rvy := 1/3 },
        rand1 := { rx := 2/3, ry := 2/3, rrot := 0, rvar := 1,
                   rvx := 2/3, rvy := 2/3 },
        id0 := "f0", id1 := "f1" }).created,
      |ch.x - 100| ≤ 10 ∧ |ch.y - 100| ≤ 10 := by
  have h := (c4_asteroid_split
      [("b", { id := "b", x := 100, y := 100, rotation := 0, size := 2,
               variation := 1, velocityX := 4, velocityY := -6 })]
      [] "b" true "health" 7
      { c := 3/5, s := 4/5,
        rand0 := { rx := 1/3, ry := 1/3, rrot := 0, rvar := 0,
                   rvx := 1/3, rvy := 1/3 },
        rand1 := { rx := 2/3, ry := 2/3, rrot := 0, rvar := 1,
                   rvx := 2/3, rvy := 2/3 },
        id0 := "f0", id1 := "f1" }).2.1
      { id := "b", x := 100, y := 100, rotation := 0, size := 2,
        variation := 1, velocityX := 4, velocityY := -6 }
      rfl (by norm_num) (by norm_num) (by norm_num) (by norm_num)
      (by norm_num) (by norm_num)
  exact h

end Spacebattle
